import Mathlib

/-!
Verification of the caregiving Reddit miner (`src/main.py`) against its
natural-language specification.

Shallow embedding: the process environment is a partial map from variable
names to string values; the external Reddit collaborator is abstracted as a
search capability `String → String → Nat → Except ε (List Post)` taking the
channel name, the search expression and the result cap and returning either
the ordered item list or an error; `pandas.DataFrame(...).to_csv(...,
index=False)` is modelled by its documented behaviour (a header row of the
dict keys in insertion order followed by one row per record, no index
column).  `None` values (`post.selftext` may be absent) are `Option String`.
Python's `str.strip` is modelled on the character list of the string.
-/

/-- The process environment: a partial map from variable names to values.
A variable set to the empty string is present (`some ""`), distinct from an
absent variable (`none`), exactly as in `os.environ`. -/
abbrev Env := String → Option String

/-- `os.environ[k]`: the value, or a `KeyError` carrying the key name. -/
def envGet (env : Env) (k : String) : Except String String :=
  match env k with
  | some v => Except.ok v
  | none => Except.error k

/-- `SUBREDDITS` constant from `src/main.py`. -/
def SUBREDDITS : List String :=
  ["eldercare", "caregivers", "agingparents", "dementia", "nursing", "premed"]

/-- `SEARCH_QUERY` constant from `src/main.py`. -/
def SEARCH_QUERY : String := "care OR dementia OR help OR caregiver OR senior"

/-- `POST_LIMIT_PER_SUB` constant from `src/main.py`. -/
def POST_LIMIT_PER_SUB : Nat := 50

/-- `OUTPUT_CSV` constant from `src/main.py`. -/
def OUTPUT_CSV : String := "caregiving_reddit_posts.csv"

/-- The default user agent passed to `os.environ.get` in `src/main.py`. -/
def DEFAULT_USER_AGENT : String :=
  "caregiving-intent-miner (read-only research script)"

/-- The four environment variables read with `os.environ[...]` (required)
in `get_reddit_client`, in the order the code reads them. -/
def REQUIRED_VARS : List String :=
  ["REDDIT_CLIENT_ID", "REDDIT_CLIENT_SECRET", "REDDIT_USERNAME", "REDDIT_PASSWORD"]

/-- Every environment variable `get_reddit_client` reads. -/
def ENV_VARS : List String := REQUIRED_VARS ++ ["REDDIT_USER_AGENT"]

/-- The `praw.Reddit` handle as far as this program observes it: the five
constructor arguments plus the mutable `read_only` flag. -/
structure RedditClient where
  client_id : String
  client_secret : String
  user_agent : String
  username : String
  password : String
  read_only : Bool
deriving DecidableEq, Repr

/-- `get_reddit_client` from `src/main.py`: reads the four required
variables (a missing one raises `KeyError`, reported as `Except.error` with
the variable name), reads the optional user agent with a default, builds
the client (praw with username/password is not read-only by itself) and
then sets `read_only := true` before returning. -/
def get_reddit_client (env : Env) : Except String RedditClient :=
  match envGet env "REDDIT_CLIENT_ID" with
  | Except.error e => Except.error e
  | Except.ok client_id =>
  match envGet env "REDDIT_CLIENT_SECRET" with
  | Except.error e => Except.error e
  | Except.ok client_secret =>
  match envGet env "REDDIT_USERNAME" with
  | Except.error e => Except.error e
  | Except.ok username =>
  match envGet env "REDDIT_PASSWORD" with
  | Except.error e => Except.error e
  | Except.ok password =>
    let user_agent := (env "REDDIT_USER_AGENT").getD DEFAULT_USER_AGENT
    let reddit : RedditClient :=
      { client_id := client_id, client_secret := client_secret,
        user_agent := user_agent, username := username, password := password,
        read_only := false }
    Except.ok { reddit with read_only := true }

/-- A raw item as returned by the external source (the attributes
`fetch_posts` reads from a praw submission).  `selftext` may be absent
(`None`). -/
structure Post where
  id : String
  title : String
  selftext : Option String
  score : Int
  num_comments : Nat
  created_utc : Int
  permalink : String
  stickied : Bool
deriving DecidableEq, Repr

/-- The normalized output unit built inside `fetch_posts` (the dict
appended to `results`).  `body` is `post.selftext` stored raw, so it may be
absent. -/
structure Record where
  subreddit : String
  id : String
  title : String
  body : Option String
  score : Int
  num_comments : Nat
  created_utc : Int
  permalink : String
  text : String
deriving DecidableEq, Repr

/-- Python `str.strip()`: remove leading and trailing whitespace, modelled
on the character list of the string. -/
def pyStrip (s : String) : String :=
  String.mk
    (((s.data.dropWhile Char.isWhitespace).reverse.dropWhile Char.isWhitespace).reverse)

/-- Python `post.selftext or ''`: the empty string when `selftext` is
absent (and also when it is already empty, which gives the same string). -/
def orEmpty (o : Option String) : String := o.getD ""

/-- The body of the `for post in subreddit.search(...)` loop of
`fetch_posts`, as a fold step over the growing `results` list: skip
stickied items, skip items whose combined stripped text is empty,
otherwise append the record. -/
def processPost (sub_name : String) (results : List Record) (post : Post) :
    List Record :=
  if post.stickied then results
  else
    let text := pyStrip (post.title ++ "\n\n" ++ orEmpty post.selftext)
    if text = "" then results
    else
      results ++
        [{ subreddit := sub_name, id := post.id, title := post.title,
           body := post.selftext, score := post.score,
           num_comments := post.num_comments, created_utc := post.created_utc,
           permalink := "https://www.reddit.com" ++ post.permalink,
           text := text }]

/-- The record an item contributes, if any: `none` exactly when the loop
body skips the item.  Derived view of `processPost` (see
`processPost_eq_emit`). -/
def emitRecord (sub_name : String) (post : Post) : Option Record :=
  if post.stickied then none
  else
    let text := pyStrip (post.title ++ "\n\n" ++ orEmpty post.selftext)
    if text = "" then none
    else
      some
        { subreddit := sub_name, id := post.id, title := post.title,
          body := post.selftext, score := post.score,
          num_comments := post.num_comments, created_utc := post.created_utc,
          permalink := "https://www.reddit.com" ++ post.permalink,
          text := text }

/-- The search capability consumed from the external collaborator: channel
name, search expression, result cap. -/
abbrev Search (ε : Type) := String → String → Nat → Except ε (List Post)

/-- The `for sub_name in SUBREDDITS` loop of `fetch_posts`, carrying the
growing `results` accumulator.  A search error is not caught: it aborts the
whole loop. -/
def fetchPostsLoop {ε : Type} (search : Search ε) :
    List String → List Record → Except ε (List Record)
  | [], results => Except.ok results
  | sub_name :: rest, results =>
    match search sub_name SEARCH_QUERY POST_LIMIT_PER_SUB with
    | Except.error e => Except.error e
    | Except.ok posts => fetchPostsLoop search rest (posts.foldl (processPost sub_name) results)

/-- `fetch_posts` from `src/main.py` (the client handle is abstracted into
the `search` capability). -/
def fetch_posts {ε : Type} (search : Search ε) : Except ε (List Record) :=
  fetchPostsLoop search SUBREDDITS []

/-- The column order of the written file: the dict insertion order of the
records built in `fetch_posts`, which `pandas.DataFrame` uses as column
order. -/
def CSV_COLUMNS : List String :=
  ["subreddit", "id", "title", "body", "score", "num_comments", "created_utc",
   "permalink", "text"]

/-- One CSV data row for a record (pandas writes an absent body as an empty
field). -/
def recordRow (r : Record) : List String :=
  [r.subreddit, r.id, r.title, orEmpty r.body, toString r.score,
   toString r.num_comments, toString r.created_utc, r.permalink, r.text]

/-- `pandas.DataFrame(posts).to_csv(..., index=False)` at row level: the
header row followed by one row per record, no index column, no trailing
summary row. -/
def to_csv (recs : List Record) : List (List String) :=
  CSV_COLUMNS :: recs.map recordRow

/-- The observable outcome of one run of the program. -/
inductive Outcome (ε : Type) where
  | configError (missing : String)
  | uncaught (e : ε)
  | emptyResult
  | saved (path : String) (rows : List (List String)) (count : Nat)
deriving Repr

/-- The process exit status of an outcome.  CPython exits with status 1
both on `sys.exit(1)` and on an uncaught exception. -/
def Outcome.exitCode {ε : Type} : Outcome ε → Nat
  | Outcome.configError _ => 1
  | Outcome.uncaught _ => 1
  | Outcome.emptyResult => 0
  | Outcome.saved _ _ _ => 0

/-- The file written by the run, if any, as path and rows. -/
def Outcome.outputFile {ε : Type} : Outcome ε → Option (String × List (List String))
  | Outcome.saved p rows _ => some (p, rows)
  | _ => none

/-- What the run printed to standard error, if anything
(`print(f"Missing environment variable: {e}", file=sys.stderr)`; the
`KeyError` renders with quotes around the key). -/
def Outcome.stderrLine {ε : Type} : Outcome ε → Option String
  | Outcome.configError k => some ("Missing environment variable: " ++ "'" ++ k ++ "'")
  | _ => none

/-- The message printed by `main` in `src/main.py` on an empty result. -/
def EMPTY_MSG : String := "No posts collected. Try adjusting SEARCH_QUERY or limits."

/-- The final confirmation line of an outcome, if any. -/
def Outcome.finalLine {ε : Type} : Outcome ε → Option String
  | Outcome.emptyResult => some EMPTY_MSG
  | Outcome.saved p _ n => some ("Saved " ++ toString n ++ " posts to " ++ p)
  | _ => none

/-- The record sequence a successful run of `fetch_posts` produces, as a
flat map in channel order: the claims compare the loop against this. -/
def collectedRecords (items : String → List Post) : List Record :=
  SUBREDDITS.flatMap fun s => (items s).filterMap (emitRecord s)

/-- `main` from `src/main.py` (named `mainRun` here because Lean reserves
`main` for executables): build the client (exiting with code 1 on a missing
variable), fetch the posts (an error propagates uncaught), return without
writing when nothing was collected, otherwise write the CSV. -/
def mainRun {ε : Type} (env : Env) (search : Search ε) : Outcome ε :=
  match get_reddit_client env with
  | Except.error k => Outcome.configError k
  | Except.ok _ =>
    match fetch_posts search with
    | Except.error e => Outcome.uncaught e
    | Except.ok posts =>
      if posts.isEmpty then Outcome.emptyResult
      else Outcome.saved OUTPUT_CSV (to_csv posts) posts.length

/-! ### Helper lemmas -/

lemma stripChars_append_newlines (l : List Char) :
    ((List.dropWhile Char.isWhitespace (l ++ ['\n', '\n'])).reverse.dropWhile
        Char.isWhitespace).reverse
      = ((List.dropWhile Char.isWhitespace l).reverse.dropWhile
          Char.isWhitespace).reverse := by
  have hn : Char.isWhitespace (Char.ofNat 10) = true := by decide
  induction l with
  | nil => simp [List.dropWhile, hn]
  | cons c t ih =>
    by_cases hc : Char.isWhitespace c
    · simpa [List.dropWhile, hc] using ih
    · simp [List.dropWhile, hc, List.reverse_append, hn]

/-- Stripping ignores a trailing pair of newline characters, so the text of
a body-less item is just the stripped title. -/
lemma pyStrip_append_newlines (s : String) : pyStrip (s ++ "\n\n") = pyStrip s := by
  unfold pyStrip
  have hd : (s ++ "\n\n").data = s.data ++ ['\n', '\n'] := String.data_append s "\n\n"
  rw [hd, stripChars_append_newlines]

/-- The loop body appends exactly the record `emitRecord` describes (or
nothing). -/
lemma processPost_eq_emit (sub_name : String) (results : List Record) (post : Post) :
    processPost sub_name results post
      = results ++ (emitRecord sub_name post).toList := by
  unfold processPost emitRecord
  by_cases hs : post.stickied
  · simp [hs]
  · by_cases ht : pyStrip (post.title ++ "\n\n" ++ orEmpty post.selftext) = ""
    · simp [hs, ht]
    · simp [hs, ht]

/-- Folding the loop body over the items of one channel appends the
filter-mapped records, in item order. -/
lemma foldl_processPost (sub_name : String) (posts : List Post) :
    ∀ acc : List Record,
      posts.foldl (processPost sub_name) acc
        = acc ++ posts.filterMap (emitRecord sub_name) := by
  induction posts with
  | nil => intro acc; simp
  | cons p ps ih =>
    intro acc
    rw [List.foldl_cons, processPost_eq_emit, ih, List.filterMap_cons]
    cases h : emitRecord sub_name p <;> simp [h]

/-- When every remaining channel query succeeds, the loop returns the
accumulator followed by the per-channel records in channel order. -/
lemma fetchPostsLoop_ok {ε : Type} (search : Search ε) (items : String → List Post) :
    ∀ (subs : List String) (acc : List Record),
      (∀ s ∈ subs, search s SEARCH_QUERY POST_LIMIT_PER_SUB = Except.ok (items s)) →
      fetchPostsLoop search subs acc
        = Except.ok (acc ++ subs.flatMap fun s => (items s).filterMap (emitRecord s)) := by
  intro subs
  induction subs with
  | nil => intro acc _; simp [fetchPostsLoop]
  | cons s rest ih =>
    intro acc h
    have hs : search s SEARCH_QUERY POST_LIMIT_PER_SUB = Except.ok (items s) :=
      h s (by simp)
    rw [fetchPostsLoop, hs]
    show fetchPostsLoop search rest (List.foldl (processPost s) acc (items s)) = _
    rw [foldl_processPost, ih _ (fun s' hs' => h s' (by simp [hs']))]
    simp

/-- If some remaining channel's query fails, the whole loop fails, and the
error it returns is one a query returned. -/
lemma fetchPostsLoop_error {ε : Type} (search : Search ε) :
    ∀ (subs : List String) (acc : List Record) (s : String) (e : ε),
      s ∈ subs → search s SEARCH_QUERY POST_LIMIT_PER_SUB = Except.error e →
      ∃ s' e', s' ∈ subs ∧
        search s' SEARCH_QUERY POST_LIMIT_PER_SUB = Except.error e' ∧
        fetchPostsLoop search subs acc = Except.error e' := by
  intro subs
  induction subs with
  | nil => intro acc s e h _; exact absurd h (List.not_mem_nil s)
  | cons s0 rest ih =>
    intro acc s e hmem herr
    cases hsearch : search s0 SEARCH_QUERY POST_LIMIT_PER_SUB with
    | error e0 =>
      exact ⟨s0, e0, by simp, hsearch, by rw [fetchPostsLoop, hsearch]⟩
    | ok posts =>
      have hmem' : s ∈ rest := by
        rcases List.mem_cons.mp hmem with rfl | h
        · rw [herr] at hsearch; cases hsearch
        · exact h
      obtain ⟨s', e', h1, h2, h3⟩ := ih _ s e hmem' herr
      exact ⟨s', e', by simp [h1], h2, by rw [fetchPostsLoop, hsearch]; exact h3⟩

/-- `get_reddit_client` errors on the first variable in read order that is
absent, when any required variable is absent. -/
lemma get_reddit_client_error_of_missing (env : Env) (k : String)
    (hk : k ∈ REQUIRED_VARS) (hmiss : env k = none) :
    ∃ k', k' ∈ REQUIRED_VARS ∧ env k' = none ∧
      get_reddit_client env = Except.error k' := by
  cases e1 : env "REDDIT_CLIENT_ID" with
  | none =>
    exact ⟨_, by simp [REQUIRED_VARS], e1, by simp [get_reddit_client, envGet, e1]⟩
  | some v1 =>
    cases e2 : env "REDDIT_CLIENT_SECRET" with
    | none =>
      exact ⟨_, by simp [REQUIRED_VARS], e2,
        by simp [get_reddit_client, envGet, e1, e2]⟩
    | some v2 =>
      cases e3 : env "REDDIT_USERNAME" with
      | none =>
        exact ⟨_, by simp [REQUIRED_VARS], e3,
          by simp [get_reddit_client, envGet, e1, e2, e3]⟩
      | some v3 =>
        cases e4 : env "REDDIT_PASSWORD" with
        | none =>
          exact ⟨_, by simp [REQUIRED_VARS], e4,
            by simp [get_reddit_client, envGet, e1, e2, e3, e4]⟩
        | some v4 =>
          exfalso
          simp only [REQUIRED_VARS, List.mem_cons, List.mem_singleton,
            List.not_mem_nil, or_false] at hk
          rcases hk with rfl | rfl | rfl | rfl <;> simp_all

/-- When the four required variables are present, `get_reddit_client`
returns the client built from them, read-only, with the optional user
agent defaulted. -/
lemma get_reddit_client_ok (env : Env) (v1 v2 v3 v4 : String)
    (e1 : env "REDDIT_CLIENT_ID" = some v1)
    (e2 : env "REDDIT_CLIENT_SECRET" = some v2)
    (e3 : env "REDDIT_USERNAME" = some v3)
    (e4 : env "REDDIT_PASSWORD" = some v4) :
    get_reddit_client env
      = Except.ok { client_id := v1, client_secret := v2,
                    user_agent := (env "REDDIT_USER_AGENT").getD DEFAULT_USER_AGENT,
                    username := v3, password := v4, read_only := true } := by
  simp [get_reddit_client, envGet, e1, e2, e3, e4]

/-! ### Concrete fixtures used by witnesses and counterexamples -/

/-- A plain non-stickied item with title and body. -/
def post1 : Post :=
  { id := "p1", title := "Need help", selftext := some "for my mom", score := 3,
    num_comments := 2, created_utc := 1700000000,
    permalink := "/r/eldercare/comments/p1/", stickied := false }

/-- The spec scenario item: `title="x"`, body absent, not stickied. -/
def postNoBody : Post :=
  { id := "x1", title := "x", selftext := none, score := 0, num_comments := 0,
    created_utc := 0, permalink := "/r/eldercare/comments/x1/", stickied := false }

/-- Same item but stickied. -/
def postStickied : Post :=
  { id := "x2", title := "x", selftext := none, score := 0, num_comments := 0,
    created_utc := 0, permalink := "/r/eldercare/comments/x2/", stickied := true }

/-- An environment with all five variables set. -/
def envFull : Env := fun k =>
  if k = "REDDIT_CLIENT_ID" then some "cid"
  else if k = "REDDIT_CLIENT_SECRET" then some "csec"
  else if k = "REDDIT_USERNAME" then some "user"
  else if k = "REDDIT_PASSWORD" then some "pw"
  else if k = "REDDIT_USER_AGENT" then some "agent"
  else none

/-- `envFull` plus an unrelated variable: agrees with `envFull` on every
variable the factory reads. -/
def envFullPlus : Env := fun k =>
  if k = "UNRELATED_VAR" then some "zzz" else envFull k

/-- Only the four required variables set; the optional user agent absent. -/
def envFour : Env := fun k =>
  if k = "REDDIT_CLIENT_ID" then some "cid"
  else if k = "REDDIT_CLIENT_SECRET" then some "csec"
  else if k = "REDDIT_USERNAME" then some "user"
  else if k = "REDDIT_PASSWORD" then some "pw"
  else none

/-- `REDDIT_USERNAME` absent, the other three required variables set. -/
def envNoUser : Env := fun k =>
  if k = "REDDIT_CLIENT_ID" then some "cid"
  else if k = "REDDIT_CLIENT_SECRET" then some "csec"
  else if k = "REDDIT_PASSWORD" then some "pw"
  else none

/-- All five variables present but set to the empty string. -/
def envEmptyVals : Env := fun k =>
  if k = "REDDIT_CLIENT_ID" then some ""
  else if k = "REDDIT_CLIENT_SECRET" then some ""
  else if k = "REDDIT_USERNAME" then some ""
  else if k = "REDDIT_PASSWORD" then some ""
  else if k = "REDDIT_USER_AGENT" then some ""
  else none

/-- A search capability that finds nothing anywhere. -/
def searchNil : Search String := fun _ _ _ => Except.ok []

/-- A search capability returning the single item `post1` on every channel. -/
def searchOne : Search String := fun _ _ _ => Except.ok [post1]

/-- A search capability that fails on the `caregivers` channel. -/
def searchBoom : Search String := fun s _ _ =>
  if s = "caregivers" then Except.error "boom" else Except.ok []

/-! ### Claims -/

/-- C1: for every item returned by a channel query, a Record is emitted if
and only if the item's stickied flag is false and the stripped
concatenation of the title, two newlines and the body (empty string when
absent) is non-empty; every emitted Record's `text` field equals exactly
that stripped concatenation; and the collector loop body appends exactly
this record to the growing result list. -/
theorem C1_emit_iff_and_text (sub_name : String) (post : Post)
    (results : List Record) :
    ((emitRecord sub_name post).isSome ↔
      (post.stickied = false ∧
        pyStrip (post.title ++ "\n\n" ++ orEmpty post.selftext) ≠ "")) ∧
    (emitRecord sub_name post).map Record.text
      = (emitRecord sub_name post).map
          (fun _ => pyStrip (post.title ++ "\n\n" ++ orEmpty post.selftext)) ∧
    processPost sub_name results post
      = results ++ (emitRecord sub_name post).toList := by
  refine ⟨?_, ?_, processPost_eq_emit sub_name results post⟩
  · unfold emitRecord
    by_cases hs : post.stickied <;>
      by_cases ht : pyStrip (post.title ++ "\n\n" ++ orEmpty post.selftext) = "" <;>
      simp [hs, ht]
  · unfold emitRecord
    by_cases hs : post.stickied <;>
      by_cases ht : pyStrip (post.title ++ "\n\n" ++ orEmpty post.selftext) = "" <;>
      simp [hs, ht]

/-- Witness for C1 at the concrete item `post1` on channel `eldercare`. -/
theorem C1_emit_iff_and_text_witness :
    ((emitRecord "eldercare" post1).isSome ↔
      (post1.stickied = false ∧
        pyStrip (post1.title ++ "\n\n" ++ orEmpty post1.selftext) ≠ "")) ∧
    (emitRecord "eldercare" post1).map Record.text
      = (emitRecord "eldercare" post1).map
          (fun _ => pyStrip (post1.title ++ "\n\n" ++ orEmpty post1.selftext)) ∧
    processPost "eldercare" [] post1
      = [] ++ (emitRecord "eldercare" post1).toList :=
  C1_emit_iff_and_text "eldercare" post1 []

/-- C6: when the client is built and the collected sequence is empty, the
run prints the informational message, writes no file, and exits 0. -/
theorem C6_empty_result {ε : Type} (env : Env) (search : Search ε)
    (c : RedditClient)
    (hc : get_reddit_client env = Except.ok c)
    (hf : fetch_posts search = Except.ok []) :
    mainRun env search = Outcome.emptyResult ∧
    (mainRun env search).exitCode = 0 ∧
    (mainRun env search).outputFile = none ∧
    (mainRun env search).finalLine = some EMPTY_MSG ∧
    EMPTY_MSG = "No posts collected. Try adjusting SEARCH_QUERY or limits." := by
  have hm : mainRun env search = Outcome.emptyResult := by
    simp [mainRun, hc, hf]
  exact ⟨hm, by rw [hm]; rfl, by rw [hm]; rfl, by rw [hm]; rfl, rfl⟩

/-- Witness for C6: full environment, a search that finds nothing. -/
theorem C6_empty_result_witness :
    mainRun envFull searchNil = Outcome.emptyResult ∧
    (mainRun envFull searchNil).exitCode = 0 ∧
    (mainRun envFull searchNil).outputFile = none ∧
    (mainRun envFull searchNil).finalLine = some EMPTY_MSG ∧
    EMPTY_MSG = "No posts collected. Try adjusting SEARCH_QUERY or limits." :=
  C6_empty_result envFull searchNil
    { client_id := "cid", client_secret := "csec", user_agent := "agent",
      username := "user", password := "pw", read_only := true }
    rfl rfl

/-- C9: whenever the client factory succeeds, the returned handle has its
read-only flag set. -/
theorem C9_read_only (env : Env) (c : RedditClient)
    (h : get_reddit_client env = Except.ok c) : c.read_only = true := by
  cases e1 : env "REDDIT_CLIENT_ID" with
  | none => simp [get_reddit_client, envGet, e1] at h
  | some v1 =>
    cases e2 : env "REDDIT_CLIENT_SECRET" with
    | none => simp [get_reddit_client, envGet, e1, e2] at h
    | some v2 =>
      cases e3 : env "REDDIT_USERNAME" with
      | none => simp [get_reddit_client, envGet, e1, e2, e3] at h
      | some v3 =>
        cases e4 : env "REDDIT_PASSWORD" with
        | none => simp [get_reddit_client, envGet, e1, e2, e3, e4] at h
        | some v4 =>
          rw [get_reddit_client_ok env v1 v2 v3 v4 e1 e2 e3 e4] at h
          injection h with h2
          rw [← h2]

/-- Witness for C9 at the concrete full environment. -/
theorem C9_read_only_witness :
    ({ client_id := "cid", client_secret := "csec", user_agent := "agent",
       username := "user", password := "pw", read_only := true } :
        RedditClient).read_only = true :=
  C9_read_only envFull
    { client_id := "cid", client_secret := "csec", user_agent := "agent",
      username := "user", password := "pw", read_only := true }
    rfl

/-- C10: a required variable set to the empty string is not treated as
missing (the factory succeeds and uses the empty strings as credentials),
the optional user agent set to the empty string overrides the default with
the empty string, and the default applies when the variable is entirely
absent. -/
theorem C10_empty_string_present (env env2 : Env)
    (hreq : ∀ k ∈ REQUIRED_VARS, env k = some "")
    (hua : env "REDDIT_USER_AGENT" = some "")
    (hreq2 : ∀ k ∈ REQUIRED_VARS, (env2 k).isSome)
    (hua2 : env2 "REDDIT_USER_AGENT" = none) :
    get_reddit_client env
      = Except.ok { client_id := "", client_secret := "", user_agent := "",
                    username := "", password := "", read_only := true } ∧
    ("" : String) ≠ DEFAULT_USER_AGENT ∧
    (∃ c, get_reddit_client env2 = Except.ok c ∧
      c.user_agent = DEFAULT_USER_AGENT) := by
  refine ⟨?_, by decide, ?_⟩
  · have e1 := hreq "REDDIT_CLIENT_ID" (by simp [REQUIRED_VARS])
    have e2 := hreq "REDDIT_CLIENT_SECRET" (by simp [REQUIRED_VARS])
    have e3 := hreq "REDDIT_USERNAME" (by simp [REQUIRED_VARS])
    have e4 := hreq "REDDIT_PASSWORD" (by simp [REQUIRED_VARS])
    rw [get_reddit_client_ok env "" "" "" "" e1 e2 e3 e4, hua]
    rfl
  · obtain ⟨v1, e1⟩ := Option.isSome_iff_exists.mp
      (hreq2 "REDDIT_CLIENT_ID" (by simp [REQUIRED_VARS]))
    obtain ⟨v2, e2⟩ := Option.isSome_iff_exists.mp
      (hreq2 "REDDIT_CLIENT_SECRET" (by simp [REQUIRED_VARS]))
    obtain ⟨v3, e3⟩ := Option.isSome_iff_exists.mp
      (hreq2 "REDDIT_USERNAME" (by simp [REQUIRED_VARS]))
    obtain ⟨v4, e4⟩ := Option.isSome_iff_exists.mp
      (hreq2 "REDDIT_PASSWORD" (by simp [REQUIRED_VARS]))
    exact ⟨_, get_reddit_client_ok env2 v1 v2 v3 v4 e1 e2 e3 e4, by rw [hua2]; rfl⟩

/-- Witness for C10: all variables set to the empty string on one
environment, the user agent absent on the other. -/
theorem C10_empty_string_present_witness :
    get_reddit_client envEmptyVals
      = Except.ok { client_id := "", client_secret := "", user_agent := "",
                    username := "", password := "", read_only := true } ∧
    ("" : String) ≠ DEFAULT_USER_AGENT ∧
    (∃ c, get_reddit_client envFour = Except.ok c ∧
      c.user_agent = DEFAULT_USER_AGENT) :=
  C10_empty_string_present envEmptyVals envFour (by decide) rfl (by decide) rfl

/-- C2: when one of the four required credential variables is absent (the
other three present), the factory raises the `KeyError` naming it, the run
reports it on standard error and exits with code 1, no file is written and
no client is constructed. -/
theorem C2_missing_required {ε : Type} (env : Env) (search : Search ε)
    (k : String) (hk : k ∈ REQUIRED_VARS) (hmiss : env k = none)
    (hrest : ∀ k' ∈ REQUIRED_VARS, k' ≠ k → (env k').isSome) :
    get_reddit_client env = Except.error k ∧
    mainRun env search = Outcome.configError k ∧
    (mainRun env search).exitCode = 1 ∧
    (mainRun env search).outputFile = none ∧
    (mainRun env search).stderrLine
      = some ("Missing environment variable: " ++ "'" ++ k ++ "'") := by
  have herr : get_reddit_client env = Except.error k := by
    simp only [REQUIRED_VARS, List.mem_cons, List.not_mem_nil, or_false] at hk
    rcases hk with rfl | rfl | rfl | rfl
    · simp [get_reddit_client, envGet, hmiss]
    · obtain ⟨v1, e1⟩ := Option.isSome_iff_exists.mp
        (hrest "REDDIT_CLIENT_ID" (by simp [REQUIRED_VARS]) (by decide))
      simp [get_reddit_client, envGet, e1, hmiss]
    · obtain ⟨v1, e1⟩ := Option.isSome_iff_exists.mp
        (hrest "REDDIT_CLIENT_ID" (by simp [REQUIRED_VARS]) (by decide))
      obtain ⟨v2, e2⟩ := Option.isSome_iff_exists.mp
        (hrest "REDDIT_CLIENT_SECRET" (by simp [REQUIRED_VARS]) (by decide))
      simp [get_reddit_client, envGet, e1, e2, hmiss]
    · obtain ⟨v1, e1⟩ := Option.isSome_iff_exists.mp
        (hrest "REDDIT_CLIENT_ID" (by simp [REQUIRED_VARS]) (by decide))
      obtain ⟨v2, e2⟩ := Option.isSome_iff_exists.mp
        (hrest "REDDIT_CLIENT_SECRET" (by simp [REQUIRED_VARS]) (by decide))
      obtain ⟨v3, e3⟩ := Option.isSome_iff_exists.mp
        (hrest "REDDIT_USERNAME" (by simp [REQUIRED_VARS]) (by decide))
      simp [get_reddit_client, envGet, e1, e2, e3, hmiss]
  have hm : mainRun env search = Outcome.configError k := by
    simp [mainRun, herr]
  exact ⟨herr, hm, by rw [hm]; rfl, by rw [hm]; rfl, by rw [hm]; rfl⟩

/-- Witness for C2: `REDDIT_USERNAME` absent, the other three present. -/
theorem C2_missing_required_witness :
    get_reddit_client envNoUser = Except.error "REDDIT_USERNAME" ∧
    mainRun envNoUser searchNil = Outcome.configError "REDDIT_USERNAME" ∧
    (mainRun envNoUser searchNil).exitCode = 1 ∧
    (mainRun envNoUser searchNil).outputFile = none ∧
    (mainRun envNoUser searchNil).stderrLine
      = some ("Missing environment variable: " ++ "'" ++ "REDDIT_USERNAME" ++ "'") :=
  C2_missing_required envNoUser searchNil "REDDIT_USERNAME" (by decide) rfl
    (by decide)

/-- C3: if the external source raises on some channel, nothing catches it:
`fetch_posts` returns that error, the run ends uncaught with a non-zero
exit status, and no file is written (records from earlier channels are
discarded). -/
theorem C3_channel_error_aborts {ε : Type} (env : Env) (search : Search ε)
    (c : RedditClient) (s : String) (e : ε)
    (hc : get_reddit_client env = Except.ok c)
    (hs : s ∈ SUBREDDITS)
    (he : search s SEARCH_QUERY POST_LIMIT_PER_SUB = Except.error e) :
    ∃ e', (∃ s' ∈ SUBREDDITS,
        search s' SEARCH_QUERY POST_LIMIT_PER_SUB = Except.error e') ∧
      fetch_posts search = Except.error e' ∧
      mainRun env search = Outcome.uncaught e' ∧
      (mainRun env search).exitCode ≠ 0 ∧
      (mainRun env search).outputFile = none := by
  obtain ⟨s', e', h1, h2, h3⟩ := fetchPostsLoop_error search SUBREDDITS [] s e hs he
  have hf : fetch_posts search = Except.error e' := h3
  have hm : mainRun env search = Outcome.uncaught e' := by simp [mainRun, hc, hf]
  exact ⟨e', ⟨s', h1, h2⟩, hf, hm, by rw [hm]; simp [Outcome.exitCode],
    by rw [hm]; rfl⟩

/-- Witness for C3: a search failing on the `caregivers` channel. -/
theorem C3_channel_error_aborts_witness :
    ∃ e', (∃ s' ∈ SUBREDDITS,
        searchBoom s' SEARCH_QUERY POST_LIMIT_PER_SUB = Except.error e') ∧
      fetch_posts searchBoom = Except.error e' ∧
      mainRun envFull searchBoom = Outcome.uncaught e' ∧
      (mainRun envFull searchBoom).exitCode ≠ 0 ∧
      (mainRun envFull searchBoom).outputFile = none :=
  C3_channel_error_aborts envFull searchBoom
    { client_id := "cid", client_secret := "csec", user_agent := "agent",
      username := "user", password := "pw", read_only := true }
    "caregivers" "boom" rfl (by decide) rfl

/-- C4: for every non-empty collected sequence, the written file is the
header row with exactly the nine columns in order, then exactly one row per
Record, and nothing after them. -/
theorem C4_csv_shape {ε : Type} (env : Env) (search : Search ε)
    (c : RedditClient) (recs : List Record)
    (hc : get_reddit_client env = Except.ok c)
    (hf : fetch_posts search = Except.ok recs)
    (hne : recs ≠ []) :
    mainRun env search
      = Outcome.saved OUTPUT_CSV (CSV_COLUMNS :: recs.map recordRow) recs.length ∧
    (mainRun env search).outputFile
      = some (OUTPUT_CSV, CSV_COLUMNS :: recs.map recordRow) ∧
    CSV_COLUMNS = ["subreddit", "id", "title", "body", "score", "num_comments",
                   "created_utc", "permalink", "text"] ∧
    (CSV_COLUMNS :: recs.map recordRow).length = recs.length + 1 := by
  have hm : mainRun env search
      = Outcome.saved OUTPUT_CSV (to_csv recs) recs.length := by
    simp [mainRun, hc, hf, List.isEmpty_iff, hne]
  exact ⟨hm, by rw [hm]; rfl, rfl, by simp⟩

/-- The record `post1` yields on a given channel. -/
def recW (sub : String) : Record :=
  { subreddit := sub, id := "p1", title := "Need help", body := some "for my mom",
    score := 3, num_comments := 2, created_utc := 1700000000,
    permalink := "https://www.reddit.com/r/eldercare/comments/p1/",
    text := "Need help\n\nfor my mom" }

/-- The sequence `searchOne` makes `fetch_posts` collect. -/
def recsW : List Record := SUBREDDITS.map recW

/-- Witness for C4: one record per channel. -/
theorem C4_csv_shape_witness :
    mainRun envFull searchOne
      = Outcome.saved OUTPUT_CSV (CSV_COLUMNS :: recsW.map recordRow) recsW.length ∧
    (mainRun envFull searchOne).outputFile
      = some (OUTPUT_CSV, CSV_COLUMNS :: recsW.map recordRow) ∧
    CSV_COLUMNS = ["subreddit", "id", "title", "body", "score", "num_comments",
                   "created_utc", "permalink", "text"] ∧
    (CSV_COLUMNS :: recsW.map recordRow).length = recsW.length + 1 :=
  C4_csv_shape envFull searchOne
    { client_id := "cid", client_secret := "csec", user_agent := "agent",
      username := "user", password := "pw", read_only := true }
    recsW rfl rfl (by decide)

/-- C5: the collector iterates exactly the six fixed channels in order,
queries each with the fixed search expression under the fixed cap of 50,
and the collected sequence is the channel-ordered concatenation of each
channel's item-ordered records. -/
theorem C5_fixed_channels_and_order {ε : Type} (search : Search ε)
    (items : String → List Post)
    (h : ∀ s ∈ SUBREDDITS,
      search s SEARCH_QUERY POST_LIMIT_PER_SUB = Except.ok (items s)) :
    SUBREDDITS
      = ["eldercare", "caregivers", "agingparents", "dementia", "nursing",
         "premed"] ∧
    SEARCH_QUERY = "care OR dementia OR help OR caregiver OR senior" ∧
    POST_LIMIT_PER_SUB = 50 ∧
    fetch_posts search = Except.ok (collectedRecords items) ∧
    collectedRecords items
      = SUBREDDITS.flatMap (fun s => (items s).filterMap (emitRecord s)) := by
  refine ⟨rfl, rfl, rfl, ?_, rfl⟩
  have h2 := fetchPostsLoop_ok search items SUBREDDITS [] h
  simpa [fetch_posts, collectedRecords] using h2

/-- The items `searchOne` returns, per channel. -/
def itemsOne : String → List Post := fun _ => [post1]

/-- Witness for C5 with the single-item search. -/
theorem C5_fixed_channels_and_order_witness :
    SUBREDDITS
      = ["eldercare", "caregivers", "agingparents", "dementia", "nursing",
         "premed"] ∧
    SEARCH_QUERY = "care OR dementia OR help OR caregiver OR senior" ∧
    POST_LIMIT_PER_SUB = 50 ∧
    fetch_posts searchOne = Except.ok (collectedRecords itemsOne) ∧
    collectedRecords itemsOne
      = SUBREDDITS.flatMap (fun s => (itemsOne s).filterMap (emitRecord s)) :=
  C5_fixed_channels_and_order searchOne itemsOne (fun _ _ => rfl)

/-- C7 counterexample: for the spec scenario item (title `"x"`, body
absent, not stickied) the emitted record's `body` field is `none` — the raw
absent body, not the empty string — and a stickied item with absent body
and non-empty title yields no record at all.  The `text` field is `"x"` as
claimed. -/
theorem C7_counterexample :
    (emitRecord "eldercare" postNoBody).isSome = true ∧
    (emitRecord "eldercare" postNoBody).map Record.text = some "x" ∧
    (emitRecord "eldercare" postNoBody).map Record.body = some none ∧
    (emitRecord "eldercare" postNoBody).map Record.body ≠ some (some "") ∧
    emitRecord "eldercare" postStickied = none := by
  refine ⟨rfl, rfl, rfl, ?_, rfl⟩
  intro h
  simp [emitRecord, postNoBody, pyStrip, orEmpty] at h

/-- C7 amended: for every non-stickied item whose body is absent and whose
stripped title is non-empty, a Record is emitted whose `body` field is the
absent value (`none`, which serializes as an empty field) and whose `text`
field equals the stripped title. -/
theorem C7_amended_absent_body (sub_name : String) (post : Post)
    (hb : post.selftext = none) (hst : post.stickied = false)
    (ht : pyStrip post.title ≠ "") :
    emitRecord sub_name post
      = some { subreddit := sub_name, id := post.id, title := post.title,
               body := none, score := post.score,
               num_comments := post.num_comments,
               created_utc := post.created_utc,
               permalink := "https://www.reddit.com" ++ post.permalink,
               text := pyStrip post.title } ∧
    (emitRecord sub_name post).map Record.body = some none ∧
    (emitRecord sub_name post).map Record.text = some (pyStrip post.title) := by
  have hcat : post.title ++ "\n\n" ++ orEmpty post.selftext = post.title ++ "\n\n" := by
    rw [hb]; simp [orEmpty]
  have htext : pyStrip (post.title ++ "\n\n" ++ orEmpty post.selftext)
      = pyStrip post.title := by
    rw [hcat, pyStrip_append_newlines]
  have hmain : emitRecord sub_name post
      = some { subreddit := sub_name, id := post.id, title := post.title,
               body := none, score := post.score,
               num_comments := post.num_comments,
               created_utc := post.created_utc,
               permalink := "https://www.reddit.com" ++ post.permalink,
               text := pyStrip post.title } := by
    rw [hb] at htext
    unfold emitRecord
    rw [hst]
    simp only [Bool.false_eq_true, if_false, hb, htext, if_neg ht]
  exact ⟨hmain, by rw [hmain]; rfl, by rw [hmain]; rfl⟩

/-- Witness for the amended C7 at the spec scenario item. -/
theorem C7_amended_absent_body_witness :
    emitRecord "eldercare" postNoBody
      = some { subreddit := "eldercare", id := postNoBody.id,
               title := postNoBody.title, body := none,
               score := postNoBody.score,
               num_comments := postNoBody.num_comments,
               created_utc := postNoBody.created_utc,
               permalink := "https://www.reddit.com" ++ postNoBody.permalink,
               text := pyStrip postNoBody.title } ∧
    (emitRecord "eldercare" postNoBody).map Record.body = some none ∧
    (emitRecord "eldercare" postNoBody).map Record.text
      = some (pyStrip postNoBody.title) :=
  C7_amended_absent_body "eldercare" postNoBody rfl rfl (by decide)

/-- C8 counterexample: the client factory succeeds on an environment that
defines only the four credential variables, so there is no fifth required
configuration value; the absent optional value falls back to the fixed
default. -/
theorem C8_counterexample :
    envFour "REDDIT_USER_AGENT" = none ∧
    get_reddit_client envFour
      = Except.ok { client_id := "cid", client_secret := "csec",
                    user_agent := DEFAULT_USER_AGENT, username := "user",
                    password := "pw", read_only := true } :=
  ⟨rfl, rfl⟩

/-- C8 amended: the factory reads exactly four required configuration
values and one optional value with a fixed default: with the four present
it succeeds and the user agent is the environment value or the default;
its result depends on the environment only at those five variables; and
with any required variable absent it fails with the name of a missing
required variable. -/
theorem C8_amended_four_required (env env2 envm : Env) (k : String)
    (hall : ∀ k' ∈ REQUIRED_VARS, (env k').isSome)
    (hagree : ∀ k' ∈ ENV_VARS, env k' = env2 k')
    (hk : k ∈ REQUIRED_VARS) (hmiss : envm k = none) :
    (∃ c, get_reddit_client env = Except.ok c ∧
      c.user_agent = (env "REDDIT_USER_AGENT").getD DEFAULT_USER_AGENT) ∧
    get_reddit_client env = get_reddit_client env2 ∧
    (∃ k', k' ∈ REQUIRED_VARS ∧ envm k' = none ∧
      get_reddit_client envm = Except.error k') ∧
    REQUIRED_VARS
      = ["REDDIT_CLIENT_ID", "REDDIT_CLIENT_SECRET", "REDDIT_USERNAME",
         "REDDIT_PASSWORD"] ∧
    ENV_VARS = REQUIRED_VARS ++ ["REDDIT_USER_AGENT"] := by
  obtain ⟨v1, e1⟩ := Option.isSome_iff_exists.mp
    (hall "REDDIT_CLIENT_ID" (by simp [REQUIRED_VARS]))
  obtain ⟨v2, e2⟩ := Option.isSome_iff_exists.mp
    (hall "REDDIT_CLIENT_SECRET" (by simp [REQUIRED_VARS]))
  obtain ⟨v3, e3⟩ := Option.isSome_iff_exists.mp
    (hall "REDDIT_USERNAME" (by simp [REQUIRED_VARS]))
  obtain ⟨v4, e4⟩ := Option.isSome_iff_exists.mp
    (hall "REDDIT_PASSWORD" (by simp [REQUIRED_VARS]))
  have h1 := hagree "REDDIT_CLIENT_ID" (by simp [ENV_VARS, REQUIRED_VARS])
  have h2 := hagree "REDDIT_CLIENT_SECRET" (by simp [ENV_VARS, REQUIRED_VARS])
  have h3 := hagree "REDDIT_USERNAME" (by simp [ENV_VARS, REQUIRED_VARS])
  have h4 := hagree "REDDIT_PASSWORD" (by simp [ENV_VARS, REQUIRED_VARS])
  have h5 := hagree "REDDIT_USER_AGENT" (by simp [ENV_VARS, REQUIRED_VARS])
  refine ⟨⟨_, get_reddit_client_ok env v1 v2 v3 v4 e1 e2 e3 e4, rfl⟩, ?_, ?_, rfl, rfl⟩
  · rw [get_reddit_client_ok env v1 v2 v3 v4 e1 e2 e3 e4,
      get_reddit_client_ok env2 v1 v2 v3 v4 (h1 ▸ e1) (h2 ▸ e2) (h3 ▸ e3) (h4 ▸ e4),
      h5]
  · exact get_reddit_client_error_of_missing envm k hk hmiss

/-- Witness for the amended C8: a full environment, the same plus an
unrelated variable, and an environment missing `REDDIT_USERNAME`. -/
theorem C8_amended_four_required_witness :
    (∃ c, get_reddit_client envFull = Except.ok c ∧
      c.user_agent = (envFull "REDDIT_USER_AGENT").getD DEFAULT_USER_AGENT) ∧
    get_reddit_client envFull = get_reddit_client envFullPlus ∧
    (∃ k', k' ∈ REQUIRED_VARS ∧ envNoUser k' = none ∧
      get_reddit_client envNoUser = Except.error k') ∧
    REQUIRED_VARS
      = ["REDDIT_CLIENT_ID", "REDDIT_CLIENT_SECRET", "REDDIT_USERNAME",
         "REDDIT_PASSWORD"] ∧
    ENV_VARS = REQUIRED_VARS ++ ["REDDIT_USER_AGENT"] :=
  C8_amended_four_required envFull envFullPlus envNoUser "REDDIT_USERNAME"
    (by decide) (by decide) (by decide) rfl
